import Mathlib

/-!
Shallow embedding of the Sorcerer value object from src/dunder_methods.py
(the "Caster" entity of the specification).

Python objects interact through mutable heap references: the spell book of a
Sorcerer is a dict object, and the constructor argument, copies made by the
arithmetic operators, and container-protocol mutation are all about which dict
object a Sorcerer holds.  We therefore model a small heap (World) holding the
dict objects (SpellBook) and the Sorcerer objects; references are indices.
Machine-level details (Python ints are unbounded) map directly to Int.
-/

/-- A Python dict from spell name to mana cost, as an insertion-ordered
association list (Python dicts preserve insertion order; updating an existing
key keeps its position, a new key is appended). -/
abbrev SpellBook := List (String × Int)

/-- The stored fields of a Sorcerer object.  The spells field is a heap
reference to a SpellBook object, mirroring how a Python attribute holds a
reference to a dict, not the dict itself. -/
structure SorcObj where
  name : String
  level : Int
  mana : Int
  spells : Nat
deriving DecidableEq

/-- The heap: every allocated dict object and every allocated Sorcerer
object, addressed by index. -/
structure World where
  books : List SpellBook
  sorcs : List SorcObj
deriving DecidableEq

def emptyWorld : World := ⟨[], []⟩

/-- Dereference a spell-book reference (dangling references read as empty;
no operation below creates one). -/
def World.book (w : World) (r : Nat) : SpellBook := (w.books[r]?).getD []

/-- Dereference a Sorcerer reference. -/
def World.sorc (w : World) (r : Nat) : SorcObj := (w.sorcs[r]?).getD ⟨"", 0, 0, 0⟩

/-- Allocate a fresh dict object, returning the new heap and its reference. -/
def World.allocBook (w : World) (b : SpellBook) : World × Nat :=
  ({ w with books := w.books ++ [b] }, w.books.length)

/-- Overwrite the dict object behind a reference (in-place dict mutation). -/
def World.setBook (w : World) (r : Nat) (b : SpellBook) : World :=
  { w with books := w.books.set r b }

/-- Allocate a fresh Sorcerer object. -/
def World.allocSorc (w : World) (s : SorcObj) : World × Nat :=
  ({ w with sorcs := w.sorcs ++ [s] }, w.sorcs.length)

/-- Overwrite the Sorcerer object behind a reference (attribute mutation). -/
def World.setSorc (w : World) (r : Nat) (s : SorcObj) : World :=
  { w with sorcs := w.sorcs.set r s }

/-- Python dict lookup: spells[k] as an Option. -/
def dictGet? (b : SpellBook) (k : String) : Option Int :=
  (b.find? (fun p => p.1 == k)).map (fun p => p.2)

/-- Python membership test: k in spells. -/
def dictContains (b : SpellBook) (k : String) : Bool :=
  b.any (fun p => p.1 == k)

/-- Python dict store: spells[k] = v, overwriting in place or appending. -/
def dictSet (b : SpellBook) (k : String) (v : Int) : SpellBook :=
  if b.any (fun p => p.1 == k) then
    b.map (fun p => if p.1 == k then (k, v) else p)
  else b ++ [(k, v)]

/-- In-place mutation of a dict object on the heap: d[k] = v for a dict
reference d held by any caller. -/
def dict_setitem (w : World) (r : Nat) (k : String) (v : Int) : World :=
  w.setBook r (dictSet (w.book r) k v)

/-- A Python attribute value of the kinds the Sorcerer class stores. -/
inductive Value where
  | str : String → Value
  | int : Int → Value
  | ref : Nat → Value
deriving DecidableEq

/-- The exceptions raised by the Sorcerer methods under study. -/
inductive PyErr where
  | valueError : String → PyErr
  | attributeError : String → PyErr
deriving DecidableEq

/-- Sorcerer.__init__ (dunder_methods.py lines 29-38).  All four fields are
stored through object.__setattr__, deliberately BYPASSING the validating
Sorcerer.__setattr__, so no value is rejected here.  The expression
" spells or \x7b\x7d " uses the caller-supplied dict object itself when it is
truthy (non-empty) — no copy — and allocates a fresh empty dict when the
argument is None or an empty (falsy) dict. -/
def sorcerer_init (w : World) (name : String) (level mana : Int)
    (spells : Option Nat) : World × Nat :=
  let (w1, bookRef) :=
    match spells with
    | some r => if (w.book r).isEmpty then w.allocBook [] else (w, r)
    | none => w.allocBook []
  w1.allocSorc ⟨name, level, mana, bookRef⟩

/-- object.__setattr__ on a Sorcerer object: the raw field store used by
Sorcerer.__setattr__ after validation.  Only the four stored fields with
values of their stored kinds are ever written by the code under study; any
other write is left as the identity. -/
def object_setattr (w : World) (r : Nat) (attr : String) (v : Value) : World :=
  let s := w.sorc r
  let s2 :=
    if attr = "name" then (match v with | .str x => { s with name := x } | _ => s)
    else if attr = "level" then (match v with | .int x => { s with level := x } | _ => s)
    else if attr = "mana" then (match v with | .int x => { s with mana := x } | _ => s)
    else if attr = "spells" then (match v with | .ref x => { s with spells := x } | _ => s)
    else s
  w.setSorc r s2

/-- Sorcerer.__setattr__ (lines 274-283): assignment of level below 1 or of
negative mana raises ValueError; every other assignment falls through to
object.__setattr__. -/
def sorcerer_setattr (w : World) (r : Nat) (attr : String) (v : Value) :
    Except PyErr World :=
  match attr, v with
  | "level", .int x =>
      if x < 1 then .error (.valueError "Sorcerer level must be >= 1")
      else .ok (object_setattr w r "level" (.int x))
  | "mana", .int x =>
      if x < 0 then .error (.valueError "Mana cannot be negative")
      else .ok (object_setattr w r "mana" (.int x))
  | _, _ => .ok (object_setattr w r attr v)

/-- object.__getattribute__ on a Sorcerer object: raw lookup of a stored
field; any other name fails with AttributeError (which Python then routes to
Sorcerer.__getattr__). -/
def object_getattribute (w : World) (r : Nat) (attr : String) :
    Except PyErr Value :=
  let s := w.sorc r
  if attr = "name" then .ok (.str s.name)
  else if attr = "level" then .ok (.int s.level)
  else if attr = "mana" then .ok (.int s.mana)
  else if attr = "spells" then .ok (.ref s.spells)
  else .error (.attributeError attr)

/-- Sorcerer.__getattribute__ (lines 255-263): every attribute read passes
through here; the name "hp" is transparently rewritten to "mana" before the
raw lookup. -/
def sorcerer_getattribute (w : World) (r : Nat) (attr : String) :
    Except PyErr Value :=
  let attr2 := if attr = "hp" then "mana" else attr
  object_getattribute w r attr2

/-- Sorcerer.__getattr__ (lines 265-272): called only when the normal lookup
fails; synthesizes "num_spells" as the length of the spell book and raises
AttributeError otherwise. -/
def sorcerer_getattr (w : World) (r : Nat) (attr : String) :
    Except PyErr Value :=
  if attr = "num_spells" then
    .ok (.int (Int.ofNat (w.book (w.sorc r).spells).length))
  else .error (.attributeError ("Sorcerer has no attribute " ++ attr))

/-- The full Python attribute-read protocol on a Sorcerer: run
Sorcerer.__getattribute__ and fall back to Sorcerer.__getattr__ when, and
only when, it raised AttributeError. -/
def pyGetattr (w : World) (r : Nat) (attr : String) : Except PyErr Value :=
  match sorcerer_getattribute w r attr with
  | .error (.attributeError _) =>
      match sorcerer_getattr w r attr with
      | .ok v => .ok v
      | .error e => .error e
  | v => v

/-- Sorcerer.__eq__ (lines 78-84) between two Sorcerer objects: tuple
comparison of (name, level).  (The foreign-type NotImplemented branch is
outside this model: both operands here are Sorcerer references.) -/
def sorcerer_eq (w : World) (a b : Nat) : Bool :=
  (w.sorc a).name == (w.sorc b).name && (w.sorc a).level == (w.sorc b).level

/-- The builtin Python hash on a (str, int) tuple, modeled as a fixed
deterministic computable function of the pair (its exact values are opaque in
Python; only determinism matters to the code). -/
def pyHashPair (p : String × Int) : Int :=
  p.1.foldl (fun h c => h * 131 + Int.ofNat c.toNat) 7 * 1000003 + p.2

/-- Sorcerer.__hash__ (lines 95-99): hash of the tuple (name, level). -/
def sorcerer_hash (w : World) (r : Nat) : Int :=
  pyHashPair ((w.sorc r).name, (w.sorc r).level)

/-- Sorcerer.__bool__ (lines 104-108): truthy iff mana is positive. -/
def sorcerer_bool (w : World) (r : Nat) : Bool :=
  decide (0 < (w.sorc r).mana)

/-- Sorcerer.__contains__ (lines 126-130): spell-name membership in the
spell book. -/
def sorcerer_contains (w : World) (c : Nat) (k : String) : Bool :=
  dictContains (w.book (w.sorc c).spells) k

/-- Sorcerer.__setitem__ (lines 138-142): container-protocol store into the
spell book the Sorcerer holds (an in-place dict mutation). -/
def sorcerer_setitem (w : World) (c : Nat) (k : String) (v : Int) : World :=
  dict_setitem w (w.sorc c).spells k v

/-- Sorcerer.__add__ (lines 153-166) with an int operand (the non-int branch
raises and is unreachable at this type): copy the spell book, then construct
a brand-new Sorcerer through __init__ with mana increased — note that
__init__ performs no validation. -/
def sorcerer_add (w : World) (c : Nat) (n : Int) : World × Nat :=
  let s := w.sorc c
  let (w1, copyRef) := w.allocBook (w.book s.spells)
  sorcerer_init w1 s.name s.level (s.mana + n) (some copyRef)

/-- Sorcerer.__sub__ (lines 168-181) with an int operand: new Sorcerer whose
mana is clamped at zero, with a copied spell book. -/
def sorcerer_sub (w : World) (c : Nat) (n : Int) : World × Nat :=
  let s := w.sorc c
  let (w1, copyRef) := w.allocBook (w.book s.spells)
  sorcerer_init w1 s.name s.level (max 0 (s.mana - n)) (some copyRef)

/-- Sorcerer.__truediv__ (lines 197-212) with an int operand: ValueError on a
zero divisor, otherwise a new Sorcerer whose mana is the Python floor
division mana // n (Int.fdiv), with a copied spell book. -/
def sorcerer_truediv (w : World) (c : Nat) (n : Int) :
    Except PyErr (World × Nat) :=
  if n = 0 then .error (.valueError "Cannot divide by zero")
  else
    let s := w.sorc c
    let (w1, copyRef) := w.allocBook (w.book s.spells)
    .ok (sorcerer_init w1 s.name s.level (Int.fdiv s.mana n) (some copyRef))

/-- Sorcerer.__iadd__ (lines 220-227) with an int operand: the assignment
self.mana += other goes through the validating Sorcerer.__setattr__ and the
method returns self — the very same object reference. -/
def sorcerer_iadd (w : World) (c : Nat) (n : Int) :
    Except PyErr (World × Nat) :=
  match sorcerer_setattr w c "mana" (.int ((w.sorc c).mana + n)) with
  | .ok w1 => .ok (w1, c)
  | .error e => .error e

/-- Sorcerer.__call__ (lines 232-250): the three-state spell invocation.
Unknown spell and insufficient mana return a message without touching state;
the success branch deducts the cost through the validating __setattr__
(which cannot fail there, since mana >= cost makes the new mana
non-negative) and reports the remaining mana. -/
def sorcerer_call (w : World) (c : Nat) (spellName : String)
    (target : Option String) : Except PyErr (World × String) :=
  let s := w.sorc c
  let book := w.book s.spells
  match dictGet? book spellName with
  | none =>
      .ok (w, s.name ++ " doesn\x27t know the spell \x27" ++ spellName ++ "\x27.")
  | some cost =>
      if s.mana < cost then
        .ok (w, s.name ++ " tries to cast \x27" ++ spellName ++ "\x27 but lacks mana!")
      else
        match sorcerer_setattr w c "mana" (.int (s.mana - cost)) with
        | .error e => .error e
        | .ok w1 =>
            let remaining := (w1.sorc c).mana
            match target with
            | none =>
                .ok (w1, s.name ++ " casts \x27" ++ spellName ++ "\x27 (cost " ++
                  toString cost ++ " MP). Remaining mana: " ++ toString remaining ++ ".")
            | some t =>
                .ok (w1, s.name ++ " casts \x27" ++ spellName ++ "\x27 on " ++ t ++
                  "! (cost " ++ toString cost ++ " MP, remaining mana: " ++
                  toString remaining ++ ")")

/-! Helper lemmas about the heap operations. -/

lemma World.sorc_allocBook (w : World) (b : SpellBook) (c : Nat) :
    (w.allocBook b).1.sorc c = w.sorc c := rfl

lemma World.book_allocBook_old (w : World) (b : SpellBook) (r : Nat)
    (h : r < w.books.length) : (w.allocBook b).1.book r = w.book r := by
  simp [World.allocBook, World.book, List.getElem?_append, h]

lemma World.book_allocBook_new (w : World) (b : SpellBook) :
    (w.allocBook b).1.book (w.allocBook b).2 = b := by
  simp [World.allocBook, World.book]

lemma World.sorc_allocSorc_old (w : World) (s : SorcObj) (c : Nat)
    (h : c < w.sorcs.length) : (w.allocSorc s).1.sorc c = w.sorc c := by
  simp [World.allocSorc, World.sorc, List.getElem?_append, h]

lemma World.sorc_allocSorc_new (w : World) (s : SorcObj) :
    (w.allocSorc s).1.sorc (w.allocSorc s).2 = s := by
  simp [World.allocSorc, World.sorc]

lemma World.book_allocSorc (w : World) (s : SorcObj) (r : Nat) :
    (w.allocSorc s).1.book r = w.book r := rfl

lemma World.sorc_setBook (w : World) (r : Nat) (b : SpellBook) (c : Nat) :
    (w.setBook r b).sorc c = w.sorc c := rfl

lemma World.book_setBook_self (w : World) (r : Nat) (b : SpellBook)
    (h : r < w.books.length) : (w.setBook r b).book r = b := by
  simp [World.setBook, World.book, List.getElem?_set_self, h]

lemma World.book_setBook_other (w : World) (r : Nat) (b : SpellBook) (q : Nat)
    (h : r ≠ q) : (w.setBook r b).book q = w.book q := by
  simp [World.setBook, World.book, List.getElem?_set_ne h]

/-- Unfolding of the constructor into the book-reference computation followed
by the allocation of the Sorcerer object. -/
lemma sorcerer_init_eq (w : World) (nm : String) (lv mn : Int)
    (sp : Option Nat) :
    sorcerer_init w nm lv mn sp =
      (let wb := match sp with
        | some r => if (w.book r).isEmpty then w.allocBook [] else (w, r)
        | none => w.allocBook []
      wb.1.allocSorc ⟨nm, lv, mn, wb.2⟩) := rfl

/-- The constructor stores name, level and mana verbatim in the fresh
object, whatever their values: __init__ bypasses the validating
__setattr__. -/
lemma sorcerer_init_fields (w : World) (nm : String) (lv mn : Int)
    (sp : Option Nat) :
    ((sorcerer_init w nm lv mn sp).1.sorc (sorcerer_init w nm lv mn sp).2).name = nm ∧
    ((sorcerer_init w nm lv mn sp).1.sorc (sorcerer_init w nm lv mn sp).2).level = lv ∧
    ((sorcerer_init w nm lv mn sp).1.sorc (sorcerer_init w nm lv mn sp).2).mana = mn := by
  rw [sorcerer_init_eq]
  cases sp with
  | none => simp [World.sorc_allocSorc_new]
  | some r =>
    by_cases hE : (w.book r).isEmpty
    · simp [hE, World.sorc_allocSorc_new]
    · simp [hE, World.sorc_allocSorc_new]

/-- The constructor always returns a fresh object reference (the next free
Sorcerer slot) and leaves every existing Sorcerer object unchanged. -/
lemma sorcerer_init_fresh (w : World) (nm : String) (lv mn : Int)
    (sp : Option Nat) :
    (sorcerer_init w nm lv mn sp).2 = w.sorcs.length ∧
    (∀ q, q < w.sorcs.length → (sorcerer_init w nm lv mn sp).1.sorc q = w.sorc q) := by
  rw [sorcerer_init_eq]
  cases sp with
  | none =>
      refine ⟨rfl, fun q hq => ?_⟩
      simp [World.allocBook, World.allocSorc, World.sorc, List.getElem?_append, hq]
  | some r =>
    by_cases hE : (w.book r).isEmpty
    · refine ⟨by simp [hE, World.allocBook, World.allocSorc], fun q hq => ?_⟩
      simp [hE, World.allocBook, World.allocSorc, World.sorc,
        List.getElem?_append, hq]
    · refine ⟨by simp [hE, World.allocSorc], fun q hq => ?_⟩
      simp [hE, World.allocSorc, World.sorc, List.getElem?_append, hq]

/-- Constructing a Sorcerer from a freshly allocated book (the pattern all
copying operators use): the result is the next Sorcerer slot, the heap of
books only grows behind the existing ones, and the new spells reference is a
fresh book slot holding exactly the allocated contents. -/
lemma sorcerer_init_alloc (w : World) (b : SpellBook) (nm : String)
    (lv mn : Int) :
    ∃ bs br2,
      sorcerer_init (w.allocBook b).1 nm lv mn (some (w.allocBook b).2)
        = (⟨w.books ++ bs, w.sorcs ++ [⟨nm, lv, mn, br2⟩]⟩, w.sorcs.length) ∧
      w.books.length ≤ br2 ∧
      (World.mk (w.books ++ bs) (w.sorcs ++ [⟨nm, lv, mn, br2⟩])).book br2 = b := by
  by_cases hE : b.isEmpty
  · refine ⟨[b, []], w.books.length + 1, ?_, by omega, ?_⟩
    · simp [sorcerer_init, World.allocBook, World.allocSorc, World.book, hE]
    · have hb : b = [] := List.isEmpty_iff.mp hE
      subst hb
      have h2 : (w.books ++ [[], []])[w.books.length + 1]? = some [] := by
        rw [List.getElem?_append_right (by omega)]
        simp
      simp [World.book, h2]
  · refine ⟨[b], w.books.length, ?_, le_refl _, ?_⟩
    · simp [sorcerer_init, World.allocBook, World.allocSorc, World.book, hE]
    · simp [World.book]

/-- The common skeleton of the copying operators (add, sub, truediv): copy
the spell book to a fresh dict object, then construct a brand-new Sorcerer.
Under valid references the result is a genuinely new object whose spell book
is an independent copy, and the receiver (object and book) is untouched. -/
lemma copy_construct_spec (w : World) (c : Nat) (nm : String) (lv mn : Int)
    (hc : c < w.sorcs.length) (hb : (w.sorc c).spells < w.books.length)
    (w2 : World) (r : Nat)
    (hp : sorcerer_init (w.allocBook (w.book (w.sorc c).spells)).1 nm lv mn
      (some (w.allocBook (w.book (w.sorc c).spells)).2) = (w2, r)) :
    (w2.sorc r).name = nm ∧ (w2.sorc r).level = lv ∧ (w2.sorc r).mana = mn ∧
    w2.book (w2.sorc r).spells = w.book (w.sorc c).spells ∧
    (w2.sorc r).spells ≠ (w.sorc c).spells ∧
    r ≠ c ∧ w2.sorc c = w.sorc c ∧
    w2.book (w.sorc c).spells = w.book (w.sorc c).spells := by
  obtain ⟨bs, br2, heq, hge, hbook⟩ :=
    sorcerer_init_alloc w (w.book (w.sorc c).spells) nm lv mn
  rw [heq] at hp
  injection hp with hw2 hr
  subst hw2
  subst hr
  have hs : (World.mk (w.books ++ bs)
      (w.sorcs ++ [⟨nm, lv, mn, br2⟩])).sorc w.sorcs.length = ⟨nm, lv, mn, br2⟩ := by
    simp [World.sorc]
  refine ⟨by rw [hs], by rw [hs], by rw [hs], ?_, ?_, by omega, ?_, ?_⟩
  · rw [hs]
    exact hbook
  · rw [hs]
    show br2 ≠ (w.sorc c).spells
    omega
  · simp [World.sorc, List.getElem?_append, hc]
  · simp [World.book, List.getElem?_append, hb]

lemma World.sorc_setSorc_self (w : World) (r : Nat) (s : SorcObj)
    (h : r < w.sorcs.length) : (w.setSorc r s).sorc r = s := by
  simp [World.setSorc, World.sorc, List.getElem?_set_self, h]

lemma World.sorc_setSorc_other (w : World) (r : Nat) (s : SorcObj) (q : Nat)
    (h : r ≠ q) : (w.setSorc r s).sorc q = w.sorc q := by
  simp [World.setSorc, World.sorc, List.getElem?_set_ne h]

lemma World.book_setSorc (w : World) (r : Nat) (s : SorcObj) (q : Nat) :
    (w.setSorc r s).book q = w.book q := rfl

/-- The add operator literally instantiates the copy-construct skeleton. -/
lemma sorcerer_add_eq (w : World) (c : Nat) (n : Int) :
    sorcerer_add w c n =
      sorcerer_init (w.allocBook (w.book (w.sorc c).spells)).1 (w.sorc c).name
        (w.sorc c).level ((w.sorc c).mana + n)
        (some (w.allocBook (w.book (w.sorc c).spells)).2) := rfl

lemma sorcerer_sub_eq (w : World) (c : Nat) (n : Int) :
    sorcerer_sub w c n =
      sorcerer_init (w.allocBook (w.book (w.sorc c).spells)).1 (w.sorc c).name
        (w.sorc c).level (max 0 ((w.sorc c).mana - n))
        (some (w.allocBook (w.book (w.sorc c).spells)).2) := rfl

lemma sorcerer_truediv_eq (w : World) (c : Nat) (n : Int) (h : n ≠ 0) :
    sorcerer_truediv w c n =
      .ok (sorcerer_init (w.allocBook (w.book (w.sorc c).spells)).1
        (w.sorc c).name (w.sorc c).level (Int.fdiv (w.sorc c).mana n)
        (some (w.allocBook (w.book (w.sorc c).spells)).2)) := by
  simp [sorcerer_truediv, h]

/-- Writing a non-negative mana value passes validation and stores it. -/
lemma sorcerer_setattr_mana_ok (w : World) (r : Nat) (x : Int) (h : 0 ≤ x) :
    sorcerer_setattr w r "mana" (.int x) =
      .ok (w.setSorc r { w.sorc r with mana := x }) := by
  have h2 : ¬ x < 0 := not_lt.mpr h
  simp [sorcerer_setattr, object_setattr, h2]

/-- Writing a negative mana value is rejected with ValueError. -/
lemma sorcerer_setattr_mana_err (w : World) (r : Nat) (x : Int) (h : x < 0) :
    sorcerer_setattr w r "mana" (.int x) =
      .error (.valueError "Mana cannot be negative") := by
  simp [sorcerer_setattr, h]

/-! Claim theorems. -/

/-- C7: for every Caster c and integer n, subtract(c, n) yields a Caster
whose mana is max(0, c.mana - n) — clamped at zero, never negative, and no
error is possible (the int branch of __sub__ cannot raise, so the operator
is total here); moreover under a valid receiver reference the result is a
new object and the receiver is left unchanged. -/
theorem C7_sub_clamps_to_zero (w : World) (c : Nat) (n : Int) :
    ((sorcerer_sub w c n).1.sorc (sorcerer_sub w c n).2).mana =
      max 0 ((w.sorc c).mana - n) ∧
    (c < w.sorcs.length → (sorcerer_sub w c n).2 ≠ c ∧
      (sorcerer_sub w c n).1.sorc c = w.sorc c) := by
  constructor
  · rw [sorcerer_sub_eq]
    exact (sorcerer_init_fields _ _ _ _ _).2.2
  · intro hc
    rw [sorcerer_sub_eq]
    obtain ⟨h1, h2⟩ := sorcerer_init_fresh (w.allocBook (w.book (w.sorc c).spells)).1
      (w.sorc c).name (w.sorc c).level (max 0 ((w.sorc c).mana - n))
      (some (w.allocBook (w.book (w.sorc c).spells)).2)
    constructor
    · rw [h1]
      show w.sorcs.length ≠ c
      omega
    · exact h2 c hc

/-- C7 witness: subtract(new("A", 5, 3), 10) has mana 0, clamped. -/
theorem C7_witness :
    ((sorcerer_sub (World.mk [[]] [⟨"A", 5, 3, 0⟩]) 0 10).1.sorc
      (sorcerer_sub (World.mk [[]] [⟨"A", 5, 3, 0⟩]) 0 10).2).mana = 0 ∧
    (sorcerer_sub (World.mk [[]] [⟨"A", 5, 3, 0⟩]) 0 10).2 ≠ 0 := by
  have h := C7_sub_clamps_to_zero (World.mk [[]] [⟨"A", 5, 3, 0⟩]) 0 10
  refine ⟨?_, (h.2 (by decide)).1⟩
  rw [h.1]
  decide

/-- C8: dividing by a nonzero integer yields a Caster whose mana is the
floor of c.mana / n (Python floor division), and dividing by zero fails
with the division-by-zero ValueError. -/
theorem C8_div_floor_and_zero_error (w : World) (c : Nat) (n : Int) :
    (n ≠ 0 → ∃ w2 r, sorcerer_truediv w c n = .ok (w2, r) ∧
      (w2.sorc r).mana = Int.fdiv (w.sorc c).mana n) ∧
    sorcerer_truediv w c 0 = .error (.valueError "Cannot divide by zero") := by
  constructor
  · intro h
    rw [sorcerer_truediv_eq w c n h]
    obtain ⟨h1, h2, h3⟩ := sorcerer_init_fields (w.allocBook (w.book (w.sorc c).spells)).1
      (w.sorc c).name (w.sorc c).level (Int.fdiv (w.sorc c).mana n)
      (some (w.allocBook (w.book (w.sorc c).spells)).2)
    exact ⟨_, _, rfl, h3⟩
  · simp [sorcerer_truediv]

/-- C8 witness: divide(new("A", 5, 7), 2) has mana 3, and divide by zero on
the same Caster errors. -/
theorem C8_witness :
    (∃ w2 r, sorcerer_truediv (World.mk [[]] [⟨"A", 5, 7, 0⟩]) 0 2 = .ok (w2, r) ∧
      (w2.sorc r).mana = 3) ∧
    sorcerer_truediv (World.mk [[]] [⟨"A", 5, 7, 0⟩]) 0 0 =
      .error (.valueError "Cannot divide by zero") := by
  have h := C8_div_floor_and_zero_error (World.mk [[]] [⟨"A", 5, 7, 0⟩]) 0 2
  refine ⟨?_, (C8_div_floor_and_zero_error (World.mk [[]] [⟨"A", 5, 7, 0⟩]) 0 0).2⟩
  obtain ⟨w2, r, h1, h2⟩ := h.1 (by decide)
  refine ⟨w2, r, h1, ?_⟩
  rw [h2]
  decide

/-- C10: converting a Caster to a boolean yields true iff its mana is
strictly positive; in particular a Caster with mana exactly 0 is falsy,
whatever its level and spell book. -/
theorem C10_truthy_iff_mana_positive (w : World) (r : Nat) :
    (sorcerer_bool w r = true ↔ 0 < (w.sorc r).mana) ∧
    ((w.sorc r).mana = 0 → sorcerer_bool w r = false) := by
  constructor
  · simp [sorcerer_bool]
  · intro h
    simp [sorcerer_bool, h]

/-- C10 witness: a level-9 Caster with a non-empty spell book whose mana has
reached exactly 0 is falsy. -/
theorem C10_witness :
    sorcerer_bool (World.mk [[("fireball", 3)]] [⟨"A", 9, 0, 0⟩]) 0 = false := by
  exact (C10_truthy_iff_mana_positive
    (World.mk [[("fireball", 3)]] [⟨"A", 9, 0, 0⟩]) 0).2 (by decide)

/-- C9: reading the field hp returns, in every heap state, exactly what
reading mana returns (the read is rewritten to mana before lookup, so hp is
an alias and not a separate field), and this holds in particular right
after any successful mutation of mana. -/
theorem C9_hp_aliases_mana (w : World) (r : Nat) :
    pyGetattr w r "hp" = pyGetattr w r "mana" ∧
    pyGetattr w r "hp" = .ok (.int (w.sorc r).mana) ∧
    (∀ x w2, sorcerer_setattr w r "mana" (.int x) = .ok w2 →
      pyGetattr w2 r "hp" = .ok (.int (w2.sorc r).mana)) := by
  refine ⟨?_, ?_, ?_⟩
  · simp [pyGetattr, sorcerer_getattribute, object_getattribute]
  · simp [pyGetattr, sorcerer_getattribute, object_getattribute]
  · intro x w2 _
    simp [pyGetattr, sorcerer_getattribute, object_getattribute]

/-- C9 witness: on a concrete Caster with mana 5, hp reads 5, and after the
mutation of mana to 9 through the validating setattr, hp reads 9. -/
theorem C9_witness :
    pyGetattr (World.mk [] [⟨"A", 1, 5, 0⟩]) 0 "hp" = .ok (.int 5) ∧
    ∃ w2, sorcerer_setattr (World.mk [] [⟨"A", 1, 5, 0⟩]) 0 "mana" (.int 9) = .ok w2 ∧
      pyGetattr w2 0 "hp" = .ok (.int 9) := by
  have h := C9_hp_aliases_mana (World.mk [] [⟨"A", 1, 5, 0⟩]) 0
  refine ⟨by rw [h.2.1]; rfl, ?_⟩
  refine ⟨World.mk [] [⟨"A", 1, 9, 0⟩], rfl, ?_⟩
  have h9 := h.2.2 9 (World.mk [] [⟨"A", 1, 9, 0⟩]) rfl
  rw [h9]
  rfl

/-- Overwriting only the mana of an object never changes the name or level
seen through any reference. -/
lemma setSorc_mana_preserves_key (w : World) (r : Nat) (x : Int) (q : Nat) :
    (((w.setSorc r { w.sorc r with mana := x }).sorc q).name = (w.sorc q).name) ∧
    (((w.setSorc r { w.sorc r with mana := x }).sorc q).level = (w.sorc q).level) := by
  by_cases hq : r = q
  · subst hq
    by_cases hr : r < w.sorcs.length
    · rw [World.sorc_setSorc_self w r _ hr]
      exact ⟨rfl, rfl⟩
    · have hset : w.setSorc r { w.sorc r with mana := x } = w := by
        simp [World.setSorc, List.set_eq_of_length_le (le_of_not_lt hr)]
      rw [hset]
      exact ⟨rfl, rfl⟩
  · rw [World.sorc_setSorc_other w r _ q hq]
    exact ⟨rfl, rfl⟩

/-- A successful mana assignment through the validating setattr is exactly
the raw store of the new mana value. -/
lemma sorcerer_setattr_mana_inv (w : World) (r : Nat) (x : Int) (w2 : World)
    (h : sorcerer_setattr w r "mana" (.int x) = .ok w2) :
    w2 = w.setSorc r { w.sorc r with mana := x } := by
  by_cases hx : x < 0
  · rw [sorcerer_setattr_mana_err w r x hx] at h
    exact (Except.noConfusion h)
  · rw [sorcerer_setattr_mana_ok w r x (not_lt.mp hx)] at h
    injection h with h
    exact h.symm

/-- C5: two Casters are equal iff their names and levels agree; equal
Casters hash identically; and the hash is a function of (name, level) only —
it is unchanged by any heap change preserving those two fields, in
particular by a mana assignment or a container-protocol store into the
spell book. -/
theorem C5_eq_hash_consistency (w : World) (a b : Nat) :
    (sorcerer_eq w a b = true ↔
      ((w.sorc a).name = (w.sorc b).name ∧ (w.sorc a).level = (w.sorc b).level)) ∧
    (sorcerer_eq w a b = true → sorcerer_hash w a = sorcerer_hash w b) ∧
    (∀ w2 : World, (w2.sorc a).name = (w.sorc a).name →
      (w2.sorc a).level = (w.sorc a).level →
      sorcerer_hash w2 a = sorcerer_hash w a) ∧
    (∀ x w2, sorcerer_setattr w a "mana" (.int x) = .ok w2 →
      sorcerer_hash w2 a = sorcerer_hash w a) ∧
    (∀ k v, sorcerer_hash (sorcerer_setitem w a k v) a = sorcerer_hash w a) := by
  have heq : sorcerer_eq w a b = true ↔
      ((w.sorc a).name = (w.sorc b).name ∧ (w.sorc a).level = (w.sorc b).level) := by
    simp [sorcerer_eq]
  refine ⟨heq, ?_, ?_, ?_, ?_⟩
  · intro h
    obtain ⟨h1, h2⟩ := heq.mp h
    simp [sorcerer_hash, h1, h2]
  · intro w2 h1 h2
    simp [sorcerer_hash, h1, h2]
  · intro x w2 h
    rw [sorcerer_setattr_mana_inv w a x w2 h]
    obtain ⟨h1, h2⟩ := setSorc_mana_preserves_key w a x a
    simp [sorcerer_hash, h1, h2]
  · intro k v
    rfl

/-- C5 witness: two Casters sharing name "A" and level 3 but with different
mana and spell books are equal and hash identically; the hash of the first
is unchanged by setting its mana to 42 and by storing a new spell. -/
theorem C5_witness :
    sorcerer_eq (World.mk [[("f", 1)], []] [⟨"A", 3, 10, 0⟩, ⟨"A", 3, 99, 1⟩]) 0 1 = true ∧
    sorcerer_hash (World.mk [[("f", 1)], []] [⟨"A", 3, 10, 0⟩, ⟨"A", 3, 99, 1⟩]) 0 =
      sorcerer_hash (World.mk [[("f", 1)], []] [⟨"A", 3, 10, 0⟩, ⟨"A", 3, 99, 1⟩]) 1 ∧
    (∃ w2, sorcerer_setattr (World.mk [[("f", 1)], []] [⟨"A", 3, 10, 0⟩, ⟨"A", 3, 99, 1⟩])
        0 "mana" (.int 42) = .ok w2 ∧
      sorcerer_hash w2 0 =
        sorcerer_hash (World.mk [[("f", 1)], []] [⟨"A", 3, 10, 0⟩, ⟨"A", 3, 99, 1⟩]) 0) ∧
    sorcerer_hash (sorcerer_setitem
        (World.mk [[("f", 1)], []] [⟨"A", 3, 10, 0⟩, ⟨"A", 3, 99, 1⟩]) 0 "iceball" 2) 0 =
      sorcerer_hash (World.mk [[("f", 1)], []] [⟨"A", 3, 10, 0⟩, ⟨"A", 3, 99, 1⟩]) 0 := by
  have h := C5_eq_hash_consistency
    (World.mk [[("f", 1)], []] [⟨"A", 3, 10, 0⟩, ⟨"A", 3, 99, 1⟩]) 0 1
  have he : sorcerer_eq
      (World.mk [[("f", 1)], []] [⟨"A", 3, 10, 0⟩, ⟨"A", 3, 99, 1⟩]) 0 1 = true := by
    exact h.1.mpr (by decide)
  refine ⟨he, h.2.1 he, ?_, h.2.2.2.2 "iceball" 2⟩
  refine ⟨World.mk [[("f", 1)], []] [⟨"A", 3, 42, 0⟩, ⟨"A", 3, 99, 1⟩], rfl, ?_⟩
  exact h.2.2.2.1 42 (World.mk [[("f", 1)], []] [⟨"A", 3, 42, 0⟩, ⟨"A", 3, 99, 1⟩]) rfl

/-- C1 counterexample: the claim says new(name, 0, 5) and new(name, 1, -1)
fail with ValidationError, but __init__ stores its arguments through
object.__setattr__, BYPASSING the validating __setattr__: both
constructions succeed (the constructor has no failure path at all — the
source __init__ contains no raise), the first yielding a Caster with
level 0 and the second one with mana -1. -/
theorem C1_counterexample :
    ((sorcerer_init emptyWorld "A" 0 5 none).1.sorc
      (sorcerer_init emptyWorld "A" 0 5 none).2).level = 0 ∧
    ((sorcerer_init emptyWorld "A" 0 5 none).1.sorc
      (sorcerer_init emptyWorld "A" 0 5 none).2).mana = 5 ∧
    ((sorcerer_init emptyWorld "A" 1 (-1) none).1.sorc
      (sorcerer_init emptyWorld "A" 1 (-1) none).2).mana = -1 := by
  decide

/-- C1 amended: construction never fails, for every name, level and mana —
the fields are stored verbatim, so a Caster violating level >= 1 or
mana >= 0 CAN be constructed; the ValidationError rejections of level < 1
and mana < 0 are enforced only by __setattr__ on later direct attribute
assignment. -/
theorem C1_amended_no_construction_validation (w : World) (nm : String)
    (lv mn : Int) (sp : Option Nat) (r : Nat) (x : Int) :
    (((sorcerer_init w nm lv mn sp).1.sorc (sorcerer_init w nm lv mn sp).2).name = nm ∧
     ((sorcerer_init w nm lv mn sp).1.sorc (sorcerer_init w nm lv mn sp).2).level = lv ∧
     ((sorcerer_init w nm lv mn sp).1.sorc (sorcerer_init w nm lv mn sp).2).mana = mn) ∧
    (x < 1 → sorcerer_setattr w r "level" (.int x) =
      .error (.valueError "Sorcerer level must be >= 1")) ∧
    (x < 0 → sorcerer_setattr w r "mana" (.int x) =
      .error (.valueError "Mana cannot be negative")) := by
  refine ⟨sorcerer_init_fields w nm lv mn sp, ?_, ?_⟩
  · intro hx
    simp [sorcerer_setattr, hx]
  · intro hx
    exact sorcerer_setattr_mana_err w r x hx

/-- C1 witness: new("B", 0, 5) succeeds with level 0, while the later
assignments level := 0 and mana := -1 are the ones rejected. -/
theorem C1_witness :
    ((sorcerer_init emptyWorld "B" 0 5 none).1.sorc
      (sorcerer_init emptyWorld "B" 0 5 none).2).level = 0 ∧
    sorcerer_setattr emptyWorld 0 "level" (.int 0) =
      .error (.valueError "Sorcerer level must be >= 1") ∧
    sorcerer_setattr emptyWorld 0 "mana" (.int (-1)) =
      .error (.valueError "Mana cannot be negative") := by
  have h := C1_amended_no_construction_validation emptyWorld "B" 0 5 none 0 0
  have h2 := C1_amended_no_construction_validation emptyWorld "B" 0 5 none 0 (-1)
  exact ⟨h.1.2.1, h.2.1 (by decide), h2.2.2 (by decide)⟩

/-- C2 counterexample: construct a Caster from a caller-held non-empty dict
(reference 0, containing fireball).  The constructor stores that very dict:
after the caller writes iceball into its own dict, the Caster suddenly
knows iceball; and after the Caster stores bolt through the container
protocol, the caller's dict contains bolt.  Both directions of the claimed
independence fail. -/
theorem C2_counterexample :
    sorcerer_contains (dict_setitem (sorcerer_init
      (World.mk [[("fireball", 3)]] []) "A" 1 5 (some 0)).1 0 "iceball" 2)
      (sorcerer_init (World.mk [[("fireball", 3)]] []) "A" 1 5 (some 0)).2
      "iceball" = true ∧
    dictContains ((sorcerer_setitem (sorcerer_init
      (World.mk [[("fireball", 3)]] []) "A" 1 5 (some 0)).1
      (sorcerer_init (World.mk [[("fireball", 3)]] []) "A" 1 5 (some 0)).2
      "bolt" 1).book 0) "bolt" = true := by
  decide

/-- C2 amended: the constructor stores no copy — when the supplied mapping
is non-empty the Caster holds the caller's dict object itself (so each side
sees the other's mutations); only when the supplied mapping is empty (or
omitted) is a fresh empty dict installed. -/
theorem C2_amended_constructor_aliases (w : World) (nm : String)
    (lv mn : Int) (m : Nat) :
    (¬ (w.book m).isEmpty = true →
      ((sorcerer_init w nm lv mn (some m)).1.sorc
        (sorcerer_init w nm lv mn (some m)).2).spells = m ∧
      (sorcerer_init w nm lv mn (some m)).1.books = w.books) ∧
    ((w.book m).isEmpty = true →
      ((sorcerer_init w nm lv mn (some m)).1.sorc
        (sorcerer_init w nm lv mn (some m)).2).spells = w.books.length ∧
      (sorcerer_init w nm lv mn (some m)).1.books = w.books ++ [[]]) := by
  constructor
  · intro hE
    rw [sorcerer_init_eq]
    simp only [hE]
    constructor
    · have := World.sorc_allocSorc_new w ⟨nm, lv, mn, m⟩
      simp [hE, this]
    · simp [hE, World.allocSorc]
  · intro hE
    rw [sorcerer_init_eq]
    constructor
    · simp [hE, World.allocBook, World.allocSorc, World.sorc]
    · simp [hE, World.allocBook, World.allocSorc]

/-- C2 witness: for the non-empty caller dict [("fireball", 3)] the stored
reference is the caller's own object 0 and the heap of dicts is untouched;
for an empty caller dict a fresh dict object 1 is installed instead. -/
theorem C2_witness :
    ((sorcerer_init (World.mk [[("fireball", 3)]] []) "A" 1 5 (some 0)).1.sorc
      (sorcerer_init (World.mk [[("fireball", 3)]] []) "A" 1 5 (some 0)).2).spells = 0 ∧
    ((sorcerer_init (World.mk [[]] []) "A" 1 5 (some 0)).1.sorc
      (sorcerer_init (World.mk [[]] []) "A" 1 5 (some 0)).2).spells = 1 := by
  have h1 := (C2_amended_constructor_aliases
    (World.mk [[("fireball", 3)]] []) "A" 1 5 0).1 (by decide)
  have h2 := (C2_amended_constructor_aliases
    (World.mk [[]] []) "A" 1 5 0).2 (by decide)
  exact ⟨h1.1, h2.1⟩

/-- C3 counterexample: with c = new("A", 5, 20), add(c, -25) does not fail —
__add__ hands the sum to the constructor, and the constructor does not
validate — it returns a Caster whose mana is -5, exactly the invalid state
the claim says is prevented.  (__add__ with an int operand has no failure
path in the source, so the operator is total in this embedding.) -/
theorem C3_counterexample :
    ((sorcerer_add (World.mk [[]] [⟨"A", 5, 20, 0⟩]) 0 (-25)).1.sorc
      (sorcerer_add (World.mk [[]] [⟨"A", 5, 20, 0⟩]) 0 (-25)).2).mana = -5 := by
  decide

/-- C3 amended: for every Caster c and integer n with c.mana + n < 0,
add(c, n) succeeds anyway and returns a Caster whose mana is the negative
value c.mana + n: no ValidationError occurs anywhere on this path. -/
theorem C3_amended_add_skips_validation (w : World) (c : Nat) (n : Int)
    (h : (w.sorc c).mana + n < 0) :
    ((sorcerer_add w c n).1.sorc (sorcerer_add w c n).2).mana =
      (w.sorc c).mana + n ∧
    ((sorcerer_add w c n).1.sorc (sorcerer_add w c n).2).mana < 0 := by
  have hf := sorcerer_init_fields (w.allocBook (w.book (w.sorc c).spells)).1
    (w.sorc c).name (w.sorc c).level ((w.sorc c).mana + n)
    (some (w.allocBook (w.book (w.sorc c).spells)).2)
  rw [sorcerer_add_eq]
  exact ⟨hf.2.2, by rw [hf.2.2]; exact h⟩

/-- C3 witness: the amended statement at c = new("A", 5, 20), n = -25. -/
theorem C3_witness :
    ((sorcerer_add (World.mk [[]] [⟨"A", 5, 20, 0⟩]) 0 (-25)).1.sorc
      (sorcerer_add (World.mk [[]] [⟨"A", 5, 20, 0⟩]) 0 (-25)).2).mana < 0 := by
  exact (C3_amended_add_skips_validation
    (World.mk [[]] [⟨"A", 5, 20, 0⟩]) 0 (-25) (by decide)).2

/-- C4: spell invocation is a three-state decision.  Unknown spell: the
unknown-spell message is returned and the heap — hence the mana — is
untouched.  Known spell but mana below cost: the insufficient-mana message
is returned and the heap is untouched.  Otherwise the mana is decreased by
exactly the cost (through the validating setattr, which cannot fail since
mana >= cost) and the cast message carries the remaining mana. -/
theorem C4_invoke_three_state (w : World) (c : Nat) (s : String) :
    (∀ tgt, dictGet? (w.book (w.sorc c).spells) s = none →
      sorcerer_call w c s tgt = .ok (w,
        (w.sorc c).name ++ " doesn\x27t know the spell \x27" ++ s ++ "\x27.")) ∧
    (∀ tgt cost, dictGet? (w.book (w.sorc c).spells) s = some cost →
      (w.sorc c).mana < cost →
      sorcerer_call w c s tgt = .ok (w,
        (w.sorc c).name ++ " tries to cast \x27" ++ s ++ "\x27 but lacks mana!")) ∧
    (∀ cost, dictGet? (w.book (w.sorc c).spells) s = some cost →
      cost ≤ (w.sorc c).mana → c < w.sorcs.length →
      ∃ w2, (w2.sorc c).mana = (w.sorc c).mana - cost ∧
        w2.sorc c = { w.sorc c with mana := (w.sorc c).mana - cost } ∧
        sorcerer_call w c s none = .ok (w2,
          (w.sorc c).name ++ " casts \x27" ++ s ++ "\x27 (cost " ++ toString cost ++
          " MP). Remaining mana: " ++ toString ((w.sorc c).mana - cost) ++ ".") ∧
        (∀ t, sorcerer_call w c s (some t) = .ok (w2,
          (w.sorc c).name ++ " casts \x27" ++ s ++ "\x27 on " ++ t ++ "! (cost " ++
          toString cost ++ " MP, remaining mana: " ++
          toString ((w.sorc c).mana - cost) ++ ")"))) := by
  refine ⟨?_, ?_, ?_⟩
  · intro tgt h
    simp [sorcerer_call, h]
  · intro tgt cost h hlt
    simp [sorcerer_call, h, hlt]
  · intro cost h hge hc
    have hnn : (0 : Int) ≤ (w.sorc c).mana - cost := by omega
    have hok := sorcerer_setattr_mana_ok w c ((w.sorc c).mana - cost) hnn
    have hs : (w.setSorc c { w.sorc c with mana := (w.sorc c).mana - cost }).sorc c
        = { w.sorc c with mana := (w.sorc c).mana - cost } :=
      World.sorc_setSorc_self w c _ hc
    have hnlt : ¬ ((w.sorc c).mana < cost) := not_lt.mpr hge
    refine ⟨w.setSorc c { w.sorc c with mana := (w.sorc c).mana - cost },
      ?_, hs, ?_, ?_⟩
    · rw [hs]
    · simp [sorcerer_call, h, hnlt, hok, hs]
    · intro t
      simp [sorcerer_call, h, hnlt, hok, hs]

/-- C4 witness: a Caster "A" with mana 20 and fireball costing 3 casts
fireball and is left with mana 17; invoking iceball returns the
unknown-spell outcome with the heap unchanged; a Caster "B" with mana 1
gets the insufficient-mana outcome with the heap unchanged. -/
theorem C4_witness :
    (∃ w2, (w2.sorc 0).mana = 17 ∧
      sorcerer_call (World.mk [[("fireball", 3)]] [⟨"A", 5, 20, 0⟩]) 0 "fireball" none =
        .ok (w2, "A casts \x27fireball\x27 (cost 3 MP). Remaining mana: 17.")) ∧
    sorcerer_call (World.mk [[("fireball", 3)]] [⟨"A", 5, 20, 0⟩]) 0 "iceball" none =
      .ok (World.mk [[("fireball", 3)]] [⟨"A", 5, 20, 0⟩],
        "A doesn\x27t know the spell \x27iceball\x27.") ∧
    sorcerer_call (World.mk [[("fireball", 3)]] [⟨"B", 5, 1, 0⟩]) 0 "fireball" none =
      .ok (World.mk [[("fireball", 3)]] [⟨"B", 5, 1, 0⟩],
        "B tries to cast \x27fireball\x27 but lacks mana!") := by
  refine ⟨?_, ?_, ?_⟩
  · obtain ⟨w2, h1, h2, h3, h4⟩ := (C4_invoke_three_state
      (World.mk [[("fireball", 3)]] [⟨"A", 5, 20, 0⟩]) 0 "fireball").2.2 3
      (by decide) (by decide) (by decide)
    refine ⟨w2, by rw [h1]; decide, ?_⟩
    rw [h3]
    rfl
  · have h := (C4_invoke_three_state
      (World.mk [[("fireball", 3)]] [⟨"A", 5, 20, 0⟩]) 0 "iceball").1 none (by decide)
    rw [h]
    rfl
  · have h := (C4_invoke_three_state
      (World.mk [[("fireball", 3)]] [⟨"B", 5, 1, 0⟩]) 0 "fireball").2.1 none 3
      (by decide) (by decide)
    rw [h]
    rfl

/-- C6: with c.mana + n >= 0 and valid references, add(c, n) returns a
genuinely new Caster with the same name and level, mana = c.mana + n and an
independent copy of the spell book (a different dict object with equal
contents), leaving the receiver object and its book untouched; iadd instead
mutates c.mana through the validating setattr and returns the very same
object reference, allocating nothing. -/
theorem C6_add_pure_iadd_in_place (w : World) (c : Nat) (n : Int)
    (hm : 0 ≤ (w.sorc c).mana + n)
    (hc : c < w.sorcs.length) (hb : (w.sorc c).spells < w.books.length) :
    ((sorcerer_add w c n).1.sorc (sorcerer_add w c n).2).name = (w.sorc c).name ∧
    ((sorcerer_add w c n).1.sorc (sorcerer_add w c n).2).level = (w.sorc c).level ∧
    ((sorcerer_add w c n).1.sorc (sorcerer_add w c n).2).mana = (w.sorc c).mana + n ∧
    (sorcerer_add w c n).1.book
      ((sorcerer_add w c n).1.sorc (sorcerer_add w c n).2).spells
      = w.book (w.sorc c).spells ∧
    ((sorcerer_add w c n).1.sorc (sorcerer_add w c n).2).spells ≠ (w.sorc c).spells ∧
    (sorcerer_add w c n).2 ≠ c ∧
    (sorcerer_add w c n).1.sorc c = w.sorc c ∧
    (sorcerer_add w c n).1.book (w.sorc c).spells = w.book (w.sorc c).spells ∧
    (∃ w2, sorcerer_iadd w c n = .ok (w2, c) ∧
      (w2.sorc c).mana = (w.sorc c).mana + n ∧
      (w2.sorc c).name = (w.sorc c).name ∧
      (w2.sorc c).level = (w.sorc c).level ∧
      w2.sorcs.length = w.sorcs.length ∧ w2.books = w.books) := by
  obtain ⟨h1, h2, h3, h4, h5, h6, h7, h8⟩ := copy_construct_spec w c (w.sorc c).name
    (w.sorc c).level ((w.sorc c).mana + n) hc hb (sorcerer_add w c n).1
    (sorcerer_add w c n).2 (sorcerer_add_eq w c n).symm
  refine ⟨h1, h2, h3, h4, h5, h6, h7, h8, ?_⟩
  have hok := sorcerer_setattr_mana_ok w c ((w.sorc c).mana + n) hm
  refine ⟨w.setSorc c { w.sorc c with mana := (w.sorc c).mana + n },
    ?_, ?_, ?_, ?_, ?_, rfl⟩
  · simp [sorcerer_iadd, hok]
  · rw [World.sorc_setSorc_self w c _ hc]
  · rw [World.sorc_setSorc_self w c _ hc]
  · rw [World.sorc_setSorc_self w c _ hc]
  · simp [World.setSorc]

/-- C6 witness: with c = new("A", 5, 20), add(c, 10) yields a new Caster
with mana 30 while c keeps mana 20; iadd(c, 10) returns the same reference
with mana mutated to 30. -/
theorem C6_witness :
    ((sorcerer_add (World.mk [[("f", 1)]] [⟨"A", 5, 20, 0⟩]) 0 10).1.sorc
      (sorcerer_add (World.mk [[("f", 1)]] [⟨"A", 5, 20, 0⟩]) 0 10).2).mana = 30 ∧
    (sorcerer_add (World.mk [[("f", 1)]] [⟨"A", 5, 20, 0⟩]) 0 10).1.sorc 0 =
      ⟨"A", 5, 20, 0⟩ ∧
    (∃ w2, sorcerer_iadd (World.mk [[("f", 1)]] [⟨"A", 5, 20, 0⟩]) 0 10 =
      .ok (w2, 0) ∧ (w2.sorc 0).mana = 30) := by
  obtain ⟨h1, h2, h3, h4, h5, h6, h7, h8, w2, h9, h10, h11⟩ :=
    C6_add_pure_iadd_in_place (World.mk [[("f", 1)]] [⟨"A", 5, 20, 0⟩]) 0 10
      (by decide) (by decide) (by decide)
  refine ⟨by rw [h3]; decide, by rw [h7]; decide, w2, h9, by rw [h10]; decide⟩
